import Mathlib

/-!
Verification of the fsGaze demo-project Sphinx configuration
(`src/demoProject/ExpoAssistent/source/conf.py`).

The configuration file is declarative data: module-level assignments of
strings, lists, dicts and one boolean, preceded by a single effectful
statement `sys.path.insert(0, os.path.abspath(".."))`.  We embed every
dict as an association list (so that "the record contains field k" is a
genuine proposition about the data rather than a typing artifact), and
model evaluation of the whole file as a state-passing function over the
interpreter state it touches (the current working directory and the
module search path `sys.path`).
-/

namespace ExpoConf

/-- Values occurring in `needs_extra_options` dicts: plain strings or
lists of strings. -/
inductive OptVal where
  | str (s : String)
  | strList (xs : List String)
deriving Repr, DecidableEq

/-- An entry of `needs_extra_options`: in the source the list mixes a
bare string (`"image"`) with dicts. -/
inductive ExtraOption where
  | str (s : String)
  | dict (entries : List (String × OptVal))
deriving Repr, DecidableEq

/-- `project = "Exploration Assistant"` (conf.py line 15). -/
def project : String := "Exploration Assistant"

/-- `copyright = "2025, Sam"` (conf.py line 16). -/
def copyright : String := "2025, Sam"

/-- `author = "Sam"` (conf.py line 17). -/
def author : String := "Sam"

/-- `release = "0.1"` (conf.py line 18). -/
def release : String := "0.1"

/-- `extensions = [...]` (conf.py line 23). -/
def extensions : List String :=
  ["sphinxcontrib.plantuml", "sphinx_needs", "sphinx.ext.autodoc"]

/-- `templates_path = ["_templates"]` (conf.py line 25). -/
def templates_path : List String := ["_templates"]

/-- `exclude_patterns = []` (conf.py line 26). -/
def exclude_patterns : List String := []

/-- `html_theme = "sphinx_rtd_theme"` (conf.py line 33). -/
def html_theme : String := "sphinx_rtd_theme"

/-- `html_static_path = ["_static"]` (conf.py line 34). -/
def html_static_path : List String := ["_static"]

/-- `needs_types = [...]` (conf.py lines 36-65): each dict is embedded
as an association list, keys and insertion order exactly as in the
source (note the fourth record lists style before color). -/
def needs_types : List (List (String × String)) :=
  [ [("directive", "req"), ("title", "Requirement"), ("prefix", "R_"),
     ("color", "#BFD8D2"), ("style", "node")],
    [("directive", "SR"), ("title", "Safety Requirement"), ("prefix", "SR_"),
     ("color", "#D19F3C"), ("style", "node")],
    [("directive", "DFA"), ("title", "DFA Requirement"), ("prefix", "DFA_"),
     ("color", "#A73E89"), ("style", "node")],
    [("directive", "arch"), ("title", "Architecture"), ("prefix", "A_"),
     ("style", "component"), ("color", "#BFD8D2")] ]

/-- `need_extra_links = [...]` (conf.py lines 67-74): one dict, whose
keys in the source are exactly `option`, `incoming`, `outgoing` and
`style`; the source comment on the `style` entry reads "color for the
link in diagrams". -/
def need_extra_links : List (List (String × String)) :=
  [ [("option", "tutorial_required_by"), ("incoming", "requires"),
     ("outgoing", "required by"), ("style", "#00AA00")] ]

/-- `needs_extra_options = [...]` (conf.py lines 76-88): a bare string
followed by two dicts. -/
def needs_extra_options : List ExtraOption :=
  [ ExtraOption.str "image",
    ExtraOption.dict
      [("name", OptVal.str "asil"),
       ("description", OptVal.str "Safety Integrity Level"),
       ("values", OptVal.strList ["A", "B", "C", "D", "A_D", "B_D", "C_D"])],
    ExtraOption.dict
      [("name", OptVal.str "sreqtype"),
       ("description", OptVal.str "Safety Requirement or DFA Requirement"),
       ("values", OptVal.strList ["SR", "DFA"])] ]

/-- `needs_build_json = True` (conf.py line 91). -/
def needs_build_json : Bool := true

/-- A string-valued record (dict) contains the key `k`. -/
def hasKey (r : List (String × String)) (k : String) : Bool :=
  r.any (fun e => e.1 == k)

/-- Value of key `k` in a string-valued record, when present. -/
def lookupStr (r : List (String × String)) (k : String) : Option String :=
  (r.find? (fun e => e.1 == k)).map (fun e => e.2)

/-- Whether a `needs_extra_options` entry is a dict carrying a
`name` key. -/
def ExtraOption.isRecordWithName : ExtraOption → Bool
  | ExtraOption.dict es => es.any (fun e => e.1 == "name")
  | ExtraOption.str _ => false

/-- The keys of a `needs_extra_options` dict entry (a bare string has
none). -/
def ExtraOption.keys : ExtraOption → List String
  | ExtraOption.dict es => es.map (fun e => e.1)
  | ExtraOption.str _ => []

/-- The value stored under the `values` key of a `needs_extra_options`
dict entry, when present. -/
def ExtraOption.valuesField : ExtraOption → Option OptVal
  | ExtraOption.dict es => (es.find? (fun e => e.1 == "values")).map (fun e => e.2)
  | ExtraOption.str _ => none

/-- The enumeration carried by the `needs_extra_options` dict whose
`name` entry equals `nm` (empty when no such dict or no list there). -/
def optionValues (nm : String) : List String :=
  match needs_extra_options.findSome? (fun o =>
    match o with
    | ExtraOption.dict es =>
        if es.any (fun e => e.1 == "name" && e.2 == OptVal.str nm) then
          match (es.find? (fun e => e.1 == "values")).map (fun e => e.2) with
          | some (OptVal.strList xs) => some xs
          | some (OptVal.str _) => none
          | none => none
        else none
    | ExtraOption.str _ => none) with
  | some xs => xs
  | none => []

/-- A safety-level code: one of the four letters A, B, C, D, optionally
suffixed with "_D". -/
def isAsilCode (s : String) : Bool :=
  ["A", "B", "C", "D"].any (fun c => s == c || s == c ++ "_D")

/-- Hexadecimal digit test. -/
def isHexDigit (c : Char) : Bool :=
  "0123456789abcdefABCDEF".toList.contains c

/-- A display color string: a hash sign followed by exactly six
hexadecimal digits. -/
def isHexColor (s : String) : Bool :=
  match s.toList with
  | '#' :: rest => rest.length == 6 && rest.all isHexDigit
  | _ => false

/-- Display color of a `needs_types` record: the value of its `color`
key. -/
def typeColor (r : List (String × String)) : String :=
  (lookupStr r "color").getD ""

/-- Display color of a `need_extra_links` record: in the source it is
stored under the `style` key (source comment: "color for the link in
diagrams"). -/
def linkColor (r : List (String × String)) : String :=
  (lookupStr r "style").getD ""

/-- Directive keyword of a `needs_types` record. -/
def directiveOf (r : List (String × String)) : String :=
  (lookupStr r "directive").getD ""

/-- Display title of a `needs_types` record. -/
def titleOf (r : List (String × String)) : String :=
  (lookupStr r "title").getD ""

/-- Identifier prefix of a `needs_types` record. -/
def prefixOf (r : List (String × String)) : String :=
  (lookupStr r "prefix").getD ""

/-- Whether a string ends with the underscore character. -/
def endsWithUnderscore (s : String) : Bool :=
  match s.toList.reverse with
  | '_' :: _ => true
  | _ => false

/-- The interpreter state conf.py touches: the current working
directory (read by `os.path.abspath("..")`) and the module search path
`sys.path` (mutated by `sys.path.insert(0, ...)`). -/
structure InterpState where
  cwd : String
  sysPath : List String
deriving Repr, DecidableEq

/-- All configuration bindings the file assigns. -/
structure Config where
  project : String
  copyright : String
  author : String
  release : String
  extensions : List String
  templates_path : List String
  exclude_patterns : List String
  html_theme : String
  html_static_path : List String
  needs_types : List (List (String × String))
  need_extra_links : List (List (String × String))
  needs_extra_options : List ExtraOption
  needs_build_json : Bool
deriving Repr, DecidableEq

/-- Evaluation of conf.py from a given interpreter state, parameterised
by the OS path-resolution function `abspath` (so that
`os.path.abspath("..")` is `abspath s.cwd ".."`).  The file first
prepends that resolved path to `sys.path` (line 5) and then performs
the static assignments of its module-level names, all of which are
literals. -/
def loadConf (abspath : String → String → String) (s : InterpState) :
    Config × InterpState :=
  (⟨project, copyright, author, release, extensions, templates_path,
    exclude_patterns, html_theme, html_static_path, needs_types,
    need_extra_links, needs_extra_options, needs_build_json⟩,
   ⟨s.cwd, abspath s.cwd ".." :: s.sysPath⟩)

/-- C1: every record in `needs_types` contains all five required fields
(directive, title, prefix, color, style), and for every pair of distinct
records both the directive keywords and the prefixes differ. -/
theorem C1_types_fields_and_uniqueness :
    needs_types.all
      (fun r => ["directive", "title", "prefix", "color", "style"].all
        (fun k => hasKey r k)) = true ∧
    List.Pairwise
      (fun r₁ r₂ => lookupStr r₁ "directive" ≠ lookupStr r₂ "directive" ∧
        lookupStr r₁ "prefix" ≠ lookupStr r₂ "prefix")
      needs_types := by
  decide

/-- C2 counterexample: the claim that every `need_extra_links` record
contains the four fields named option, incoming-label, outgoing-label
and color is false on the code: the single record (index 0) has no
`color` key at all (nor keys spelled `incoming-label` or
`outgoing-label`), while the list is non-empty. -/
theorem C2_link_fields_counterexample :
    need_extra_links.length = 1 ∧
    hasKey (need_extra_links.getD 0 []) "color" = false ∧
    hasKey (need_extra_links.getD 0 []) "incoming-label" = false ∧
    hasKey (need_extra_links.getD 0 []) "outgoing-label" = false := by
  decide

/-- C2 amended: every record in `need_extra_links` contains the four
fields actually used by the source — `option`, `incoming` (incoming
label), `outgoing` (outgoing label) and `style` (the display color,
per the source comment) — and no two records share an option name. -/
theorem C2_link_fields_amended :
    need_extra_links.all
      (fun r => ["option", "incoming", "outgoing", "style"].all
        (fun k => hasKey r k)) = true ∧
    List.Pairwise
      (fun r₁ r₂ => lookupStr r₁ "option" ≠ lookupStr r₂ "option")
      need_extra_links := by
  decide

/-- C3 counterexample: the claim that every entry of
`needs_extra_options` is a record with a `name` field is false on the
code: the entry at index 0 is the bare string "image", which is not a
record and has no `name` field. -/
theorem C3_option_shape_counterexample :
    needs_extra_options.getD 0 (ExtraOption.str "") = ExtraOption.str "image" ∧
    ExtraOption.isRecordWithName (ExtraOption.str "image") = false := by
  decide

/-- C3 amended: every entry of `needs_extra_options` is either a bare
string naming an option or a record of shape \x7bname, description?,
values?\x7d: every dict entry has a `name` field and all of its keys are
among name, description and values. -/
theorem C3_option_shape_amended :
    needs_extra_options.all
      (fun o =>
        match o with
        | ExtraOption.str s => !(s == "")
        | ExtraOption.dict _ =>
            ExtraOption.isRecordWithName o &&
            (ExtraOption.keys o).all
              (fun k => ["name", "description", "values"].contains k)) = true := by
  decide

/-- C4: every `needs_extra_options` record carrying a `values` field
holds a non-empty, duplicate-free enumeration (a list of strings with
no repeated element). -/
theorem C4_values_nonempty_nodup :
    needs_extra_options.all
      (fun o =>
        match ExtraOption.valuesField o with
        | some (OptVal.strList xs) => !(xs == []) && xs.Nodup
        | some (OptVal.str _) => false
        | none => true) = true := by
  decide

/-- C5: the `asil` option's enumeration is non-empty and every value is
one of the four letters A, B, C, D optionally suffixed with "_D", and
the `sreqtype` option exposes exactly a two-value, duplicate-free tag
set. -/
theorem C5_closed_enumerations :
    optionValues "asil" ≠ [] ∧
    (optionValues "asil").all isAsilCode = true ∧
    (optionValues "sreqtype").length = 2 ∧
    (optionValues "sreqtype").Nodup := by
  decide

/-- C6: the `extensions` list contains only non-empty string
identifiers and no duplicate entries. -/
theorem C6_extensions_nonempty_nodup :
    extensions.all (fun s => !(s == "")) = true ∧ extensions.Nodup := by
  decide

/-- C7: loading the configuration is deterministic and idempotent at
the value level: any two evaluations of the file, from arbitrary
interpreter states and even under arbitrary OS path-resolution
behaviour, produce identical configuration bindings (project metadata,
extensions, paths, theme, needs_types, need_extra_links,
needs_extra_options, needs_build_json). -/
theorem C7_load_deterministic
    (abspath₁ abspath₂ : String → String → String)
    (s₁ s₂ : InterpState) :
    (loadConf abspath₁ s₁).1 = (loadConf abspath₂ s₂).1 := rfl

/-- C8 counterexample: the claim that evaluating the file mutates no
pre-existing global interpreter state is false: starting from a module
search path `["stdlib"]`, evaluation leaves `sys.path` different from
`["stdlib"]` (line 5 inserts the resolved project root at the front). -/
theorem C8_frame_counterexample :
    (loadConf (fun c p => c ++ "/" ++ p)
      ⟨"/repo/demoProject/ExpoAssistent/source", ["stdlib"]⟩).2.sysPath ≠
      ["stdlib"] := by
  decide

/-- C8 amended: evaluating the configuration file performs no effect on
global runtime state other than the static assignment of its own
module-level names and exactly one mutation: it prepends the resolved
parent directory of the current working directory to the module search
path, leaving the working directory and the rest of `sys.path`
unchanged. -/
theorem C8_frame_amended
    (abspath : String → String → String) (s : InterpState) :
    (loadConf abspath s).2.cwd = s.cwd ∧
    (loadConf abspath s).2.sysPath = abspath s.cwd ".." :: s.sysPath :=
  ⟨rfl, rfl⟩

/-- C9: every display color in the configuration — the `color` field of
each `needs_types` record and the link display color of each
`need_extra_links` record — is a hash sign followed by exactly six
hexadecimal digits. -/
theorem C9_colors_are_hex :
    needs_types.all (fun r => isHexColor (typeColor r)) = true ∧
    need_extra_links.all (fun r => isHexColor (linkColor r)) = true := by
  decide

/-- C10: the `sreqtype` enumeration coincides exactly with the
directive keywords of the Safety Requirement and DFA Requirement type
records (both being SR and DFA), and every prefix in `needs_types`
ends with an underscore. -/
theorem C10_sreqtype_matches_directives :
    optionValues "sreqtype" =
      (needs_types.filter
        (fun r => ["Safety Requirement", "DFA Requirement"].contains
          (titleOf r))).map directiveOf ∧
    optionValues "sreqtype" = ["SR", "DFA"] ∧
    needs_types.all (fun r => endsWithUnderscore (prefixOf r)) = true := by
  decide

end ExpoConf
